import Mathlib

/-!
Verification development for the contact-manager program `assignment.py`
(value types `Name`/`Phone`/`Birthday`, the `Record` aggregate, the
`AddressBook` collection with its upcoming-birthday algorithm, and the
command handlers wrapped by the `input_error` decorator).

The embedding is shallow: Python in-place mutation is modelled by state
passing (each mutator returns the updated value), Python exceptions by an
explicit `PyErr` error type threaded through `Except`, and `datetime`
dates by a `Date` structure of numeric fields together with a
proleptic-Gregorian day count (`rataDie`).  `datetime.today()` is passed
in as an explicit parameter wherever the source calls it.
-/

namespace Assignment

/-- Python exceptions that the source can raise.  `input_error` catches
`ValueError` (rendered as its message), `IndexError` and `KeyError`;
`AttributeError` is not caught and crashes the program. -/
inductive PyErr where
  | valueError (msg : String)
  | indexError
  | keyError
  | attributeError
deriving DecidableEq, Repr

instance {ε α : Type} [DecidableEq ε] [DecidableEq α] : DecidableEq (Except ε α) :=
  fun a b =>
    match a, b with
    | .error e1, .error e2 =>
      if h : e1 = e2 then isTrue (by rw [h]) else isFalse (fun hc => h (by cases hc; rfl))
    | .error _, .ok _ => isFalse (fun hc => by cases hc)
    | .ok _, .error _ => isFalse (fun hc => by cases hc)
    | .ok a1, .ok a2 =>
      if h : a1 = a2 then isTrue (by rw [h]) else isFalse (fun hc => h (by cases hc; rfl))

/-- A calendar date, as held by a Python `datetime` value (time-of-day
components are never used by the source). -/
structure Date where
  year : Nat
  month : Nat
  day : Nat
deriving DecidableEq, Repr

/-- Gregorian leap-year rule, as used by Python's `datetime`. -/
def isLeap (y : Nat) : Bool :=
  (y % 4 = 0 && y % 100 != 0) || y % 400 = 0

/-- 1 on leap years, 0 otherwise. -/
def leapN (y : Nat) : Nat := if isLeap y then 1 else 0

/-- Length of month `m` (1..12) of year `y`. -/
def daysInMonth (y m : Nat) : Nat :=
  if m = 2 then 28 + leapN y
  else if m = 4 || m = 6 || m = 9 || m = 11 then 30
  else 31

/-- Days in year `y` strictly before month `m` (1..12). -/
def daysBeforeMonth (y m : Nat) : Nat :=
  match m with
  | 2 => 31
  | 3 => 59 + leapN y
  | 4 => 90 + leapN y
  | 5 => 120 + leapN y
  | 6 => 151 + leapN y
  | 7 => 181 + leapN y
  | 8 => 212 + leapN y
  | 9 => 243 + leapN y
  | 10 => 273 + leapN y
  | 11 => 304 + leapN y
  | 12 => 334 + leapN y
  | _ => 0

/-- The dates representable by Python `datetime` (with `MINYEAR = 1`);
`datetime.strptime` rejects anything else with a `ValueError`. -/
def validDate (d : Date) : Bool :=
  1 ≤ d.year && 1 ≤ d.month && d.month ≤ 12 && 1 ≤ d.day && d.day ≤ daysInMonth d.year d.month

/-- Proleptic-Gregorian day number (0001-01-01 is day 1).  Differences of
`rataDie` values model differences of Python `date` objects in days. -/
def rataDie (d : Date) : Nat :=
  365 * (d.year - 1) + (d.year - 1) / 4 - (d.year - 1) / 100 + (d.year - 1) / 400
    + daysBeforeMonth d.year d.month + d.day

/-- Python `date.weekday()`: 0 = Monday .. 6 = Sunday.  Day 1
(0001-01-01) of the proleptic Gregorian calendar is a Monday. -/
def weekday (d : Date) : Nat := (rataDie d - 1) % 7

/-- The day after `d`, with month and year rollover. -/
def nextDay (d : Date) : Date :=
  if d.day < daysInMonth d.year d.month then ⟨d.year, d.month, d.day + 1⟩
  else if d.month < 12 then ⟨d.year, d.month + 1, 1⟩
  else ⟨d.year + 1, 1, 1⟩

/-- `d + timedelta(days = k)` for `k ≥ 0`. -/
def addDays (d : Date) : Nat → Date
  | 0 => d
  | k + 1 => nextDay (addDays d k)

/-- Zero-padded two-digit rendering (`strftime` `%d` / `%m`). -/
def pad2 (n : Nat) : String :=
  if n < 10 then "0" ++ toString n else toString n

/-- Zero-padded four-digit rendering (`strftime` `%Y` for the years the
program handles). -/
def pad4 (n : Nat) : String :=
  if n < 10 then "000" ++ toString n
  else if n < 100 then "00" ++ toString n
  else if n < 1000 then "0" ++ toString n
  else toString n

/-- `strftime("%d.%m.%Y")`. -/
def fmtDate (d : Date) : String :=
  pad2 d.day ++ "." ++ pad2 d.month ++ "." ++ pad4 d.year

/-! ### The two regular expressions of the source

`Phone.PH_PATTERN` is `^\d{10}$` and `Birthday.BD_PATTERN` is
`^\d{2}\.\d{2}\.\d{4}$`, both applied with `re.match`.  `re.match`
anchors at the start of the string, and per the Python `re`
documentation `$` "matches at the end of the string or just before the
newline at the end of the string", so each pattern also accepts its
10-character body followed by one trailing newline.  `\d` is modelled as
the ASCII digits 0-9. -/

/-- Faithful model of `re.match(r'^\d{10}$', s)` being truthy. -/
def phMatch (s : String) : Bool :=
  10 ≤ s.data.length && (s.data.take 10).all Char.isDigit
    && (s.data.drop 10 = [] || s.data.drop 10 = ['\n'])

/-- The first ten characters have the shape `dd.mm.yyyy`. -/
def bdShape (cs : List Char) : Bool :=
  match cs with
  | [a, b, c, d, e, f, g, h, i, j] =>
    a.isDigit && b.isDigit && c = '.' && d.isDigit && e.isDigit && f = '.'
      && g.isDigit && h.isDigit && i.isDigit && j.isDigit
  | _ => false

/-- Faithful model of `re.match(r'^\d{2}\.\d{2}\.\d{4}$', s)` being truthy. -/
def bdMatch (s : String) : Bool :=
  bdShape (s.data.take 10) && (s.data.drop 10 = [] || s.data.drop 10 = ['\n'])

/-- Spec-side predicate (from the spec's words, for comparison with the
source's `phMatch`): the string consists of exactly ten decimal digits. -/
def tenDigits (s : String) : Bool :=
  s.data.length = 10 && s.data.all Char.isDigit

/-- Ten decimal digits followed by a single trailing newline — the extra
strings accepted by `re.match(r'^\d{10}$', ·)`. -/
def tenDigitNl (s : String) : Bool :=
  (s.data.take 10).all Char.isDigit && s.data.drop 10 = ['\n']

/-- Python `str.strip()` (over the whitespace characters that can occur
here), as a list-level computation. -/
def pyStrip (s : String) : String :=
  let wsp : Char → Bool := fun c => c = ' ' || c = '\n' || c = '\t' || c = '\r'
  ⟨((s.data.dropWhile wsp).reverse.dropWhile wsp).reverse⟩

/-- Numeric value of an ASCII digit. -/
def digitVal (c : Char) : Nat := c.toNat - 48

/-- `datetime.strptime(·, "%d.%m.%Y")` on a 10-character `dd.mm.yyyy`
shape (the only shape it is applied to, the regex having matched):
`none` models the `ValueError` raised on a non-existent calendar date. -/
def parseDMY (cs : List Char) : Option Date :=
  match cs with
  | [a, b, _, c, d, _, e, f, g, h] =>
    let dd := 10 * digitVal a + digitVal b
    let mm := 10 * digitVal c + digitVal d
    let yyyy := 1000 * digitVal e + 100 * digitVal f + 10 * digitVal g + digitVal h
    if validDate ⟨yyyy, mm, dd⟩ then some ⟨yyyy, mm, dd⟩ else none
  | _ => none

/-- Spec-side predicate (from the spec's words): a well-formed
`DD.MM.YYYY` string denoting a real calendar date. -/
def wellFormedDMY (s : String) : Bool :=
  s.data.length = 10 && bdShape s.data && (parseDMY s.data).isSome

/-! ### Value types -/

/-- `Phone`: wraps the validated string; equality is by value
(`Phone.__eq__`). -/
structure Phone where
  value : String
deriving DecidableEq, Repr

/-- `Phone.__init__`: raises `ValueError` unless `PH_PATTERN` matches. -/
def Phone.init (value : String) : Except PyErr Phone :=
  if phMatch value then .ok ⟨value⟩
  else .error (.valueError "Phone number must contain exactly 10 digits.")

/-- `Field.__str__` on a `Phone`. -/
def Phone.str (p : Phone) : String := p.value

/-- `Birthday`: stores the parsed `datetime` (not the string). -/
structure Birthday where
  value : Date
deriving DecidableEq, Repr

/-- `Birthday.__init__`: checks `BD_PATTERN`, then parses
`value.strip()` with `strptime`, re-raising any parse failure with the
same fixed message.  Under a `BD_PATTERN` match, `value.strip()` is the
first ten characters of `value`. -/
def Birthday.init (value : String) : Except PyErr Birthday :=
  if bdMatch value then
    match parseDMY (value.data.take 10) with
    | some d => .ok ⟨d⟩
    | none => .error (.valueError "Invalid date format. Use DD.MM.YYYY")
  else .error (.valueError "Invalid date format. Use DD.MM.YYYY")

/-! ### Record -/

/-- A contact record: a name (the `Name` wrapper carries no validation,
so it is modelled by its string), an ordered phone list and an optional
birthday.  `Record.__init__` yields `⟨name, [], none⟩`. -/
structure Record where
  name : String
  phones : List Phone
  birthday : Option Birthday
deriving DecidableEq, Repr

/-- `Record.find_phone`: first phone whose value equals `phone`, else
`ValueError('Phone number not found')`.  Pure (no mutation). -/
def Record.find_phone (r : Record) (phone : String) : Except PyErr Phone :=
  match r.phones.find? (fun p => p.value == phone) with
  | some p => .ok p
  | none => .error (.valueError "Phone number not found")

/-- `Record.add_phone`: validates, rejects duplicates, else appends.
Mutation is modelled by returning the record alongside the outcome; on
an exception the record is returned as it was when the raise happened. -/
def Record.add_phone (r : Record) (phone : String) : Except PyErr Unit × Record :=
  match Phone.init phone with
  | .error e => (.error e, r)
  | .ok p =>
    if p ∈ r.phones then (.error (.valueError "This phone number already exists"), r)
    else (.ok (), { r with phones := r.phones ++ [p] })

/-- `Record.edit_phone`: `find_phone(old)`, construct `Phone(new)`,
then `self.phones[self.phones.index(phone_old)] = phone_new`.
`list.index` returns the first index holding an element equal to
`phone_old`; since `Phone` equality is by value that is the first index
whose value is `old`, i.e. the index `find_phone` stopped at. -/
def Record.edit_phone (r : Record) (old nw : String) : Except PyErr Unit × Record :=
  match r.find_phone old with
  | .error e => (.error e, r)
  | .ok pold =>
    match Phone.init nw with
    | .error e => (.error e, r)
    | .ok pnew =>
      (.ok (), { r with phones := r.phones.set (r.phones.findIdx (fun q => q == pold)) pnew })

/-- `Record.delete_phone`: `find_phone(phone)` then `list.remove`
(removes the first equal element). -/
def Record.delete_phone (r : Record) (phone : String) : Except PyErr Unit × Record :=
  match r.find_phone phone with
  | .error e => (.error e, r)
  | .ok pobj => (.ok (), { r with phones := r.phones.erase pobj })

/-- `Record.add_birthday`: unconditionally `self.birthday =
Birthday(birthday)` — no already-set check at this level. -/
def Record.add_birthday (r : Record) (birthday : String) : Except PyErr Unit × Record :=
  match Birthday.init birthday with
  | .error e => (.error e, r)
  | .ok bd => (.ok (), { r with birthday := some bd })

/-! ### AddressBook -/

/-- The insertion-ordered `dict` underlying `AddressBook` (Python dicts
preserve insertion order; assigning to an existing key updates it in
place). -/
def insertDict (l : List (String × Record)) (k : String) (v : Record) :
    List (String × Record) :=
  match l with
  | [] => [(k, v)]
  | (k2, v2) :: rest =>
    if k2 = k then (k, v) :: rest else (k2, v2) :: insertDict rest k v

/-- `del data[k]` for a present key: removes the (unique) entry. -/
def removeKey (l : List (String × Record)) (k : String) : List (String × Record) :=
  match l with
  | [] => []
  | (k2, v2) :: rest =>
    if k2 = k then rest else (k2, v2) :: removeKey rest k

/-- `AddressBook`: a `UserDict` mapping name strings to records. -/
structure AddressBook where
  data : List (String × Record)
deriving DecidableEq, Repr

/-- `AddressBook.add_record`: `self.data[record.name.value] = record`. -/
def AddressBook.add_record (b : AddressBook) (r : Record) : AddressBook :=
  ⟨insertDict b.data r.name r⟩

/-- `AddressBook.find`: `self.data.get(name)`. -/
def AddressBook.find (b : AddressBook) (name : String) : Option Record :=
  (b.data.find? (fun kv => kv.1 == name)).map (fun kv => kv.2)

/-- `AddressBook.delete`: removes the entry, or raises `ValueError` when
the name is absent. -/
def AddressBook.delete (b : AddressBook) (name : String) :
    Except PyErr Unit × AddressBook :=
  if (b.find name).isSome then (.ok (), ⟨removeKey b.data name⟩)
  else (.error (.valueError "This name does not exist in this address book"), b)

/-- One element of the `get_upcoming_birthdays` output:
`{'name': ..., 'congratulation_date': ...}`. -/
structure Entry where
  name : String
  congratulation_date : String
deriving DecidableEq, Repr

/-- The body of the inner `for year in [this_year, next_year]` loop of
`get_upcoming_birthdays`, for one candidate year: re-parses
`f'{ddmm}.{year}'` (raising `ValueError` when the projected date does
not exist, e.g. Feb 29 in a non-leap year), computes `days_diff`
against today, and emits at most one entry.  In the weekday branch the
emitted string is the `f'{ddmm}.{year}'` string itself (day and month
zero-padded by `strftime('%d.%m')`, the year rendered by the f-string
without padding); in the weekend branch it is
`strftime(candidate + timedelta(days = 7 - weekday), '%d.%m.%Y')`. -/
def candidateEntries (nm : String) (todayN : Nat) (dd mm year : Nat) :
    Except PyErr (List Entry) :=
  if validDate ⟨year, mm, dd⟩ then
    if 0 ≤ (rataDie ⟨year, mm, dd⟩ : Int) - (todayN : Int)
        ∧ (rataDie ⟨year, mm, dd⟩ : Int) - (todayN : Int) ≤ 7 then
      -- the source's weekday test is `0 <= weekday <= 4`; the lower
      -- bound is vacuous for a 0..6 weekday
      if weekday ⟨year, mm, dd⟩ ≤ 4 then
        .ok [⟨nm, pad2 dd ++ "." ++ pad2 mm ++ "." ++ toString year⟩]
      else
        .ok [⟨nm, fmtDate (addDays ⟨year, mm, dd⟩ (7 - weekday ⟨year, mm, dd⟩))⟩]
    else .ok []
  else .error (.valueError "day is out of range for month")

/-- The per-record body of `get_upcoming_birthdays`: reads
`record.birthday.value` — an `AttributeError` when the birthday is
`None` — and tries the birthday's day/month in this year and the
next. -/
def recordEntries (today : Date) (r : Record) : Except PyErr (List Entry) :=
  match r.birthday with
  | none => .error .attributeError
  | some bd =>
    match candidateEntries r.name (rataDie today) bd.value.day bd.value.month today.year with
    | .error e => .error e
    | .ok e1 =>
      match candidateEntries r.name (rataDie today) bd.value.day bd.value.month
          (today.year + 1) with
      | .error e => .error e
      | .ok e2 => .ok (e1 ++ e2)

/-- Folds `recordEntries` over the book's values in insertion order. -/
def collectEntries (today : Date) : List (String × Record) → Except PyErr (List Entry)
  | [] => .ok []
  | (_, r) :: rest =>
    match recordEntries today r with
    | .error e => .error e
    | .ok es =>
      match collectEntries today rest with
      | .error e => .error e
      | .ok rest2 => .ok (es ++ rest2)

/-- `AddressBook.get_upcoming_birthdays`, with `datetime.today()` passed
in as `today`. -/
def AddressBook.get_upcoming_birthdays (b : AddressBook) (today : Date) :
    Except PyErr (List Entry) :=
  collectEntries today b.data

/-! ### Command handlers

Each Python handler mutates the book in place and is wrapped by the
`input_error` decorator.  A handler body is modelled as a function to
`Except PyErr String × AddressBook`: the book component carries any
mutation performed before an exception was raised.  Handlers that
unpack a fixed number of arguments raise `ValueError` on an arity
mismatch (Python unpacking error; its exact message is irrelevant to
every use below and abbreviated). -/

/-- The `input_error` decorator: `ValueError` renders as its message,
`IndexError` as `'Not enough arguments'`, `KeyError` as
`'Contact not found'`; anything else propagates. -/
def inputError (p : Except PyErr String × AddressBook) :
    Except PyErr String × AddressBook :=
  match p.1 with
  | .ok s => (.ok s, p.2)
  | .error (.valueError m) => (.ok m, p.2)
  | .error .indexError => (.ok "Not enough arguments", p.2)
  | .error .keyError => (.ok "Contact not found", p.2)
  | .error e => (.error e, p.2)

/-- Body of `add_contact`: on a fresh name the new record is added to
the book before `add_phone` runs, so a phone validation failure leaves
the phone-less record behind. -/
def add_contact_body (args : List String) (book : AddressBook) :
    Except PyErr String × AddressBook :=
  match args with
  | [name, phone] =>
    match book.find name with
    | none =>
      let r : Record := ⟨name, [], none⟩
      let book1 := book.add_record r
      match r.add_phone phone with
      | (.error e, _) => (.error e, book1)
      | (.ok _, r2) => (.ok "Contact added.", book1.add_record r2)
    | some r =>
      match r.add_phone phone with
      | (.error e, _) => (.error e, book)
      | (.ok _, r2) => (.ok "Contact updated.", book.add_record r2)
  | _ => (.error (.valueError "unpack"), book)

/-- `add_contact` as wrapped by `input_error`. -/
def add_contact (args : List String) (book : AddressBook) :
    Except PyErr String × AddressBook :=
  inputError (add_contact_body args book)

/-- Body of `delete_contact`: `args[0]` (an `IndexError` when no
argument is given), then a find-check raising
`ValueError('No contact found')`, then `book.delete`. -/
def delete_contact_body (args : List String) (book : AddressBook) :
    Except PyErr String × AddressBook :=
  match args with
  | [] => (.error .indexError, book)
  | name :: _ =>
    match book.find name with
    | none => (.error (.valueError "No contact found"), book)
    | some _ =>
      match book.delete name with
      | (.error e, b2) => (.error e, b2)
      | (.ok _, b2) => (.ok "Contact deleted", b2)

/-- `delete_contact` as wrapped by `input_error`. -/
def delete_contact (args : List String) (book : AddressBook) :
    Except PyErr String × AddressBook :=
  inputError (delete_contact_body args book)

/-- Body of `show_phone`: joins the phone values with `'; '` and strips
the result. -/
def show_phone_body (args : List String) (book : AddressBook) :
    Except PyErr String × AddressBook :=
  match args with
  | [] => (.error .indexError, book)
  | name :: _ =>
    match book.find name with
    | none => (.error (.valueError "No contact found"), book)
    | some r =>
      (.ok (pyStrip (String.intercalate "; " (r.phones.map Phone.value))), book)

/-- `show_phone` as wrapped by `input_error`. -/
def show_phone (args : List String) (book : AddressBook) :
    Except PyErr String × AddressBook :=
  inputError (show_phone_body args book)

/-- Body of the `add_birthday` handler: find-check, then the write-once
check `if record.birthday: raise ValueError('Birthday already given')`,
then `record.add_birthday(birthday)` (whose mutation of the aliased
record is modelled by re-inserting the updated record at its key). -/
def add_birthday_body (args : List String) (book : AddressBook) :
    Except PyErr String × AddressBook :=
  match args with
  | [name, birthday] =>
    match book.find name with
    | none => (.error (.valueError "No contact found"), book)
    | some r =>
      if r.birthday.isSome then (.error (.valueError "Birthday already given"), book)
      else
        match r.add_birthday birthday with
        | (.error e, _) => (.error e, book)
        | (.ok _, r2) => (.ok "Birthday added", book.add_record r2)
  | _ => (.error (.valueError "unpack"), book)

/-- The `add_birthday` handler as wrapped by `input_error`. -/
def add_birthday (args : List String) (book : AddressBook) :
    Except PyErr String × AddressBook :=
  inputError (add_birthday_body args book)

/-! ### Helper lemmas: calendar arithmetic -/

lemma leapN_eq (y : Nat) :
    leapN y = if (y % 4 = 0 ∧ ¬ y % 100 = 0) ∨ y % 400 = 0 then 1 else 0 := by
  unfold leapN isLeap
  split_ifs with h1 h2 <;> simp_all [Bool.or_eq_true, Bool.and_eq_true, decide_eq_true_eq,
    bne_iff_ne]

lemma daysInMonth_pos (y m : Nat) : 1 ≤ daysInMonth y m := by
  unfold daysInMonth leapN
  split_ifs <;> omega

lemma daysBeforeMonth_succ (y m : Nat) (h1 : 1 ≤ m) (h2 : m ≤ 11) :
    daysBeforeMonth y (m + 1) = daysBeforeMonth y m + daysInMonth y m := by
  interval_cases m <;> simp [daysBeforeMonth, daysInMonth, leapN] <;> split_ifs <;> omega

lemma validDate_iff (d : Date) :
    validDate d = true ↔
      1 ≤ d.year ∧ 1 ≤ d.month ∧ d.month ≤ 12 ∧ 1 ≤ d.day
        ∧ d.day ≤ daysInMonth d.year d.month := by
  unfold validDate
  simp [Bool.and_eq_true, decide_eq_true_eq]
  tauto

lemma rataDie_pos (d : Date) (h : validDate d = true) : 1 ≤ rataDie d := by
  rw [validDate_iff] at h
  unfold rataDie
  have h100 : (d.year - 1) / 100 ≤ 365 * (d.year - 1) + (d.year - 1) / 4 := by
    have := Nat.div_le_self (d.year - 1) 100
    omega
  omega

lemma rataDie_nextDay (d : Date) (h : validDate d = true) :
    validDate (nextDay d) = true ∧ rataDie (nextDay d) = rataDie d + 1 := by
  obtain ⟨y, m, dd⟩ := d
  rw [validDate_iff] at h
  obtain ⟨hy, hm1, hm2, hd1, hd2⟩ := h
  simp only at hy hm1 hm2 hd1 hd2
  unfold nextDay
  simp only
  split_ifs with h1 h2
  · constructor
    · rw [validDate_iff]; simp only; omega
    · unfold rataDie; simp only; omega
  · have hdd : dd = daysInMonth y m := by omega
    have hstep := daysBeforeMonth_succ y m hm1 (by omega)
    constructor
    · rw [validDate_iff]
      simp only
      have := daysInMonth_pos y (m + 1)
      omega
    · unfold rataDie; simp only; omega
  · -- year rollover: m = 12, dd = 31
    have hm : m = 12 := by omega
    subst hm
    have hdd : dd = 31 := by
      have : daysInMonth y 12 = 31 := by unfold daysInMonth; norm_num
      omega
    subst hdd
    have hy1 : y - 1 + 1 = y := by omega
    have h4 := Nat.succ_div (y - 1) 4
    have h100 := Nat.succ_div (y - 1) 100
    have h400 := Nat.succ_div (y - 1) 400
    rw [hy1] at h4 h100 h400
    constructor
    · rw [validDate_iff]
      simp only
      unfold daysInMonth
      norm_num
    · unfold rataDie daysBeforeMonth
      simp only [Nat.add_sub_cancel]
      rw [leapN_eq]
      have hd4 : 4 ∣ y ↔ y % 4 = 0 := Nat.dvd_iff_mod_eq_zero
      have hd100 : 100 ∣ y ↔ y % 100 = 0 := Nat.dvd_iff_mod_eq_zero
      have hd400 : 400 ∣ y ↔ y % 400 = 0 := Nat.dvd_iff_mod_eq_zero
      split_ifs at * <;> omega

lemma rataDie_addDays (d : Date) (k : Nat) (h : validDate d = true) :
    validDate (addDays d k) = true ∧ rataDie (addDays d k) = rataDie d + k := by
  induction k with
  | zero => exact ⟨h, rfl⟩
  | succ k ih =>
    obtain ⟨ih1, ih2⟩ := ih
    obtain ⟨h1, h2⟩ := rataDie_nextDay (addDays d k) ih1
    refine ⟨h1, ?_⟩
    show rataDie (nextDay (addDays d k)) = rataDie d + (k + 1)
    omega

lemma weekday_lt (d : Date) : weekday d < 7 := by
  unfold weekday
  omega

/-- Rolling a valid date forward by `7 - weekday` days lands on a
Monday. -/
lemma weekday_roll_monday (d : Date) (h : validDate d = true) :
    weekday (addDays d (7 - weekday d)) = 0 := by
  obtain ⟨h1, h2⟩ := rataDie_addDays d (7 - weekday d) h
  have hpos := rataDie_pos d h
  unfold weekday at *
  omega

/-! ### Helper lemmas: phone lists -/

lemma phone_eq_of_value_eq (p : Phone) (v : String) (h : p.value = v) : p = ⟨v⟩ := by
  cases p
  simp_all

lemma find_phone_of_mem (l : List Phone) (old : String) (h : Phone.mk old ∈ l) :
    l.find? (fun p => p.value == old) = some ⟨old⟩ := by
  induction l with
  | nil => cases h
  | cons x xs ih =>
    by_cases hx : x.value = old
    · have hxeq : x = ⟨old⟩ := phone_eq_of_value_eq x old hx
      rw [hxeq]
      exact List.find?_cons_of_pos _ (by simp)
    · rw [List.find?_cons_of_neg _ (by simp [hx])]
      refine ih ?_
      rcases List.mem_cons.mp h with h2 | h2
      · exact absurd (show x.value = old by rw [← h2]) hx
      · exact h2

lemma find_phone_of_not_mem (l : List Phone) (old : String) (h : Phone.mk old ∉ l) :
    l.find? (fun p => p.value == old) = none := by
  rw [List.find?_eq_none]
  intro x hx hpx
  exact h (by rwa [← phone_eq_of_value_eq x old (by simpa using hpx)])

lemma findIdx_of_nodup (l : List Phone) (i : Nat) (a : Phone) (hn : l.Nodup)
    (h : l[i]? = some a) : l.findIdx (fun q => q == a) = i := by
  induction l generalizing i with
  | nil => simp at h
  | cons x xs ih =>
    obtain ⟨hx, hxs⟩ := List.nodup_cons.mp hn
    cases i with
    | zero =>
      rw [List.getElem?_cons_zero] at h
      obtain rfl : x = a := by injection h
      rw [List.findIdx_cons]
      simp
    | succ i =>
      rw [List.getElem?_cons_succ] at h
      have hmem : a ∈ xs := List.getElem?_mem h
      have hxa : (x == a) = false := by
        simp only [beq_eq_false_iff_ne, ne_eq]
        intro hc
        exact hx (hc ▸ hmem)
      rw [List.findIdx_cons, hxa]
      simp [ih i hxs h]

lemma nodup_set (l : List Phone) (i : Nat) (b : Phone) (hn : l.Nodup) (hb : b ∉ l) :
    (l.set i b).Nodup := by
  induction l generalizing i with
  | nil => simp
  | cons x xs ih =>
    obtain ⟨hx, hxs⟩ := List.nodup_cons.mp hn
    cases i with
    | zero =>
      rw [List.set_cons_zero, List.nodup_cons]
      exact ⟨fun hc => hb (List.mem_cons_of_mem x hc), hxs⟩
    | succ i =>
      rw [List.set_cons_succ, List.nodup_cons]
      refine ⟨?_, ih i hxs (fun hc => hb (List.mem_cons_of_mem x hc))⟩
      intro hc
      rcases List.mem_or_eq_of_mem_set hc with h2 | h2
      · exact hx h2
      · exact hb (h2 ▸ List.mem_cons_self x xs)

lemma nodup_append_singleton (l : List Phone) (p : Phone) (hn : l.Nodup) (hp : p ∉ l) :
    (l ++ [p]).Nodup := by
  rw [List.nodup_append]
  refine ⟨hn, List.nodup_singleton p, fun a ha hb => ?_⟩
  have hb2 : a = p := by simpa using hb
  exact hp (hb2 ▸ ha)

/-! ### Helper lemmas: the regular expressions -/

lemma phMatch_of_tenDigits (s : String) (h : tenDigits s = true) : phMatch s = true := by
  unfold tenDigits at h
  simp only [Bool.and_eq_true, decide_eq_true_eq] at h
  obtain ⟨hlen, hall⟩ := h
  unfold phMatch
  rw [← hlen, List.take_length, List.drop_length]
  simp [hall, hlen]

lemma phMatch_of_tenDigitNl (s : String) (h : tenDigitNl s = true) : phMatch s = true := by
  unfold tenDigitNl at h
  simp only [Bool.and_eq_true, decide_eq_true_eq] at h
  obtain ⟨hall, hdrop⟩ := h
  have hlen : (s.data.drop 10).length = s.data.length - 10 := List.length_drop 10 s.data
  rw [hdrop] at hlen
  simp only [List.length_singleton] at hlen
  unfold phMatch
  simp only [Bool.and_eq_true, Bool.or_eq_true, decide_eq_true_eq]
  exact ⟨⟨by omega, hall⟩, Or.inr hdrop⟩

lemma tenDigits_or_nl_of_phMatch (s : String) (h : phMatch s = true) :
    tenDigits s = true ∨ tenDigitNl s = true := by
  unfold phMatch at h
  simp only [Bool.and_eq_true, Bool.or_eq_true, decide_eq_true_eq] at h
  obtain ⟨⟨hlen, hall⟩, hdrop⟩ := h
  rcases hdrop with hdrop | hdrop
  · left
    have h10 : s.data.length = 10 := by
      have := List.drop_eq_nil_iff.mp hdrop
      omega
    unfold tenDigits
    simp only [Bool.and_eq_true, decide_eq_true_eq]
    refine ⟨h10, ?_⟩
    have h11 : s.data.take 10 = s.data := by rw [← h10, List.take_length]
    rwa [h11] at hall
  · right
    unfold tenDigitNl
    simp only [Bool.and_eq_true, decide_eq_true_eq]
    exact ⟨hall, hdrop⟩

lemma phone_init_of_tenDigits (s : String) (h : tenDigits s = true) :
    Phone.init s = .ok ⟨s⟩ := by
  unfold Phone.init
  rw [phMatch_of_tenDigits s h]
  rfl

lemma phone_init_of_not_phMatch (s : String) (h : phMatch s = false) :
    Phone.init s = .error (.valueError "Phone number must contain exactly 10 digits.") := by
  unfold Phone.init
  rw [h]
  rfl

lemma take_of_wellFormedDMY (s : String) (h : wellFormedDMY s = true) :
    s.data.take 10 = s.data ∧ bdMatch s = true ∧ (parseDMY s.data).isSome = true := by
  unfold wellFormedDMY at h
  rw [Bool.and_eq_true, Bool.and_eq_true, decide_eq_true_eq] at h
  obtain ⟨⟨hlen, hshape⟩, hparse⟩ := h
  have htake : s.data.take 10 = s.data := by rw [← hlen, List.take_length]
  refine ⟨htake, ?_, hparse⟩
  unfold bdMatch
  rw [htake, ← hlen, List.drop_length]
  simp [hshape]

lemma birthday_init_of_wellFormed (s : String) (h : wellFormedDMY s = true) :
    ∃ d : Date, parseDMY s.data = some d ∧ Birthday.init s = .ok ⟨d⟩ := by
  obtain ⟨htake, hmatch, hparse⟩ := take_of_wellFormedDMY s h
  obtain ⟨d, hd⟩ := Option.isSome_iff_exists.mp hparse
  refine ⟨d, hd, ?_⟩
  unfold Birthday.init
  rw [hmatch, htake, hd]
  simp

/-! ### Helper lemmas: the address book -/

lemma find?_insertDict (l : List (String × Record)) (k : String) (v : Record) :
    (insertDict l k v).find? (fun kv => kv.1 == k) = some (k, v) := by
  induction l with
  | nil => simp [insertDict, List.find?]
  | cons kv rest ih =>
    obtain ⟨k2, v2⟩ := kv
    unfold insertDict
    by_cases hk : k2 = k
    · rw [if_pos hk]
      exact List.find?_cons_of_pos _ (by simp)
    · rw [if_neg hk, List.find?_cons_of_neg _ (by simp [hk]), ih]

lemma find_add_record (b : AddressBook) (r : Record) :
    (b.add_record r).find r.name = some r := by
  unfold AddressBook.add_record AddressBook.find
  rw [find?_insertDict]
  rfl

lemma phone_init_ok (s : String) (q : Phone) (h : Phone.init s = .ok q) : q = ⟨s⟩ := by
  unfold Phone.init at h
  split at h
  · injection h with h2
    rw [← h2]
  · cases h

/-! ### The claims -/

/-- C1: the claim says `getUpcomingBirthdays` skips records without a
birthday and must not raise.  The code reads `record.birthday.value`
before any filtering, so a single birthday-less record makes the call
raise `AttributeError` (which `input_error` does not catch) instead of
producing the output of the book with that record removed (here: the
empty output). -/
theorem C1_missing_birthday_raises :
    AddressBook.get_upcoming_birthdays ⟨[("Alice", ⟨"Alice", [], none⟩)]⟩ ⟨2024, 6, 10⟩
      = .error .attributeError
    ∧ AddressBook.get_upcoming_birthdays ⟨[]⟩ ⟨2024, 6, 10⟩ = .ok [] :=
  ⟨rfl, rfl⟩

/-- C3 counterexample: starting from phones `1111111111, 2222222222`,
`editPhone("1111111111", "2222222222")` succeeds and leaves two phones
that compare equal, violating the claimed invariant. -/
def c3rec : Record :=
  (((Record.add_phone ⟨"A", [], none⟩ "1111111111").2.add_phone "2222222222").2.edit_phone
      "1111111111" "2222222222").2

/-- C3 counterexample: the record reached by `addPhone("1111111111")`,
`addPhone("2222222222")`, `editPhone("1111111111", "2222222222")` holds
the phone list `[2222222222, 2222222222]` — two phones that compare
equal, so the claimed invariant fails after an `editPhone`. -/
theorem C3_counterexample :
    c3rec.phones = [⟨"2222222222"⟩, ⟨"2222222222"⟩] ∧ ¬ c3rec.phones.Nodup :=
  ⟨rfl, by decide⟩

/-- C3 (amended): `addPhone` and `deletePhone` preserve phone
distinctness unconditionally; `editPhone(old, new)` preserves it only
when no phone equal to `new` is already stored — editing `old` to an
already-present `new` produces two equal phones. -/
theorem C3_phone_distinctness (r : Record) (p old nw : String) :
    (r.phones.Nodup → ((r.add_phone p).2).phones.Nodup)
    ∧ (r.phones.Nodup → ((r.delete_phone p).2).phones.Nodup)
    ∧ (r.phones.Nodup → Phone.mk nw ∉ r.phones →
        ((r.edit_phone old nw).2).phones.Nodup) := by
  refine ⟨?_, ?_, ?_⟩
  · intro hn
    rcases hinit : Phone.init p with e | q
    · simp [Record.add_phone, hinit, hn]
    · by_cases hmem : q ∈ r.phones
      · simp [Record.add_phone, hinit, hmem, hn]
      · simp [Record.add_phone, hinit, hmem]
        exact nodup_append_singleton _ q hn hmem
  · intro hn
    rcases hf : r.find_phone p with e | pobj
    · simp [Record.delete_phone, hf, hn]
    · simp [Record.delete_phone, hf]
      exact List.Nodup.erase pobj hn
  · intro hn hnw
    rcases hf : r.find_phone old with e | pold
    · simp [Record.edit_phone, hf, hn]
    · rcases hinit : Phone.init nw with e | pnew
      · simp [Record.edit_phone, hf, hinit, hn]
      · simp [Record.edit_phone, hf, hinit]
        have hpnew : pnew = ⟨nw⟩ := phone_init_ok nw pnew hinit
        exact nodup_set _ _ _ hn (hpnew ▸ hnw)

/-- C3 witness: a concrete distinctness-preserving `addPhone`. -/
theorem C3_phone_distinctness_w :
    ((Record.add_phone ⟨"B", [⟨"1234567890"⟩], none⟩ "0987654321").2).phones.Nodup :=
  (C3_phone_distinctness ⟨"B", [⟨"1234567890"⟩], none⟩ "0987654321" "x" "y").1 (by decide)

/-- C4 counterexample: `delete Bob` on the empty book displays
`No contact found` (the handler raises `ValueError('No contact found')`,
rendered as its message), not the claimed `Contact not found` (which is
the rendering of `KeyError`, unreachable on this path). -/
theorem C4_counterexample :
    delete_contact ["Bob"] (⟨[]⟩ : AddressBook)
      = (.ok "No contact found", (⟨[]⟩ : AddressBook))
    ∧ "No contact found" ≠ "Contact not found" :=
  ⟨rfl, by decide⟩

/-- C4 (amended): for every book not containing the name, the
delete-contact handler returns the display string `No contact found`
and leaves the book unchanged. -/
theorem C4_delete_missing (book : AddressBook) (name : String)
    (h : book.find name = none) :
    delete_contact [name] book = (.ok "No contact found", book) := by
  simp [delete_contact, delete_contact_body, inputError, h]

/-- C4 witness: the amended statement at `delete Bob` on the empty book. -/
theorem C4_delete_missing_w :
    delete_contact ["Bob"] (⟨[]⟩ : AddressBook)
      = (.ok "No contact found", (⟨[]⟩ : AddressBook)) :=
  C4_delete_missing ⟨[]⟩ "Bob" rfl

/-- The book after `add Alice 1234567890` on the empty book. -/
def c9book1 : AddressBook := ⟨[("Alice", ⟨"Alice", [⟨"1234567890"⟩], none⟩)]⟩

/-- The book after a further `add Alice 0987654321`. -/
def c9book2 : AddressBook :=
  ⟨[("Alice", ⟨"Alice", [⟨"1234567890"⟩, ⟨"0987654321"⟩], none⟩)]⟩

/-- C9: `add Alice 1234567890` on the empty book answers
`Contact added.` and creates the record; `add Alice 0987654321` answers
`Contact updated.` and appends the phone; `phone Alice` then answers
the phones joined by `; ` in insertion order. -/
theorem C9_add_add_phone_scenario :
    add_contact ["Alice", "1234567890"] ⟨[]⟩ = (.ok "Contact added.", c9book1)
    ∧ add_contact ["Alice", "0987654321"] c9book1 = (.ok "Contact updated.", c9book2)
    ∧ (show_phone ["Alice"] c9book2).1 = .ok "1234567890; 0987654321" :=
  ⟨rfl, rfl, rfl⟩

/-- C10: calling the add handler with a fresh name and a phone string
rejected by the phone pattern reports the validation error, yet the
book has been mutated: it now maps the name to a record with an empty
phone list, because the record is inserted before the phone is
validated. -/
theorem C10_add_invalid_phone_mutates (book : AddressBook) (name phone : String)
    (h1 : book.find name = none) (h2 : phMatch phone = false) :
    add_contact [name, phone] book
      = (.ok "Phone number must contain exactly 10 digits.",
         book.add_record ⟨name, [], none⟩)
    ∧ (book.add_record ⟨name, [], none⟩).find name = some ⟨name, [], none⟩ := by
  constructor
  · simp [add_contact, add_contact_body, h1, Record.add_phone,
      phone_init_of_not_phMatch phone h2, inputError]
  · exact find_add_record book ⟨name, [], none⟩

/-- C10 witness: `add Bob 123` on the empty book. -/
theorem C10_add_invalid_phone_mutates_w :
    add_contact ["Bob", "123"] (⟨[]⟩ : AddressBook)
      = (.ok "Phone number must contain exactly 10 digits.",
         AddressBook.add_record ⟨[]⟩ ⟨"Bob", [], none⟩) :=
  (C10_add_invalid_phone_mutates ⟨[]⟩ "Bob" "123" rfl (by decide)).1

lemma pad4_eq_toString (n : Nat) (h : 1000 ≤ n) : pad4 n = toString n := by
  unfold pad4
  rw [if_neg (by omega), if_neg (by omega), if_neg (by omega)]

/-- C2: through the `add-birthday` operation, a record's birthday is
write-once: with a birthday already present any input fails with the
already-set error and the book (hence the stored birthday) is
unchanged; with no birthday present, a well-formed `DD.MM.YYYY` date is
parsed and stored, and an input the `Birthday` constructor rejects
fails with the invalid-format error, leaving the book unchanged. -/
theorem C2_add_birthday_policy (book : AddressBook) (name s : String) (r : Record)
    (hfind : book.find name = some r) :
    (r.birthday.isSome = true →
      add_birthday_body [name, s] book
        = (.error (.valueError "Birthday already given"), book))
    ∧ (r.birthday = none → wellFormedDMY s = true →
        ∃ d : Date, parseDMY s.data = some d
          ∧ add_birthday_body [name, s] book
              = (.ok "Birthday added", book.add_record { r with birthday := some ⟨d⟩ }))
    ∧ (r.birthday = none →
        Birthday.init s = .error (.valueError "Invalid date format. Use DD.MM.YYYY") →
        add_birthday_body [name, s] book
          = (.error (.valueError "Invalid date format. Use DD.MM.YYYY"), book)) := by
  refine ⟨?_, ?_, ?_⟩
  · intro hb
    simp only [add_birthday_body]
    rw [hfind]
    simp only [hb, if_true]
  · intro hb hwf
    obtain ⟨d, hd, hinit⟩ := birthday_init_of_wellFormed s hwf
    refine ⟨d, hd, ?_⟩
    simp only [add_birthday_body]
    rw [hfind]
    simp only [hb, Option.isSome_none, Bool.false_eq_true, if_false, Record.add_birthday]
    rw [hinit]
  · intro hb hinit
    simp only [add_birthday_body]
    rw [hfind]
    simp only [hb, Option.isSome_none, Bool.false_eq_true, if_false, Record.add_birthday]
    rw [hinit]

/-- A record "E" whose birthday is already set. -/
def c2recBd : Record := ⟨"E", [], some ⟨⟨1990, 1, 2⟩⟩⟩

/-- A book holding `c2recBd`. -/
def c2book : AddressBook := ⟨[("E", c2recBd)]⟩

/-- C2 witness: re-adding a birthday to "E" fails with the already-set
error and the book is unchanged. -/
theorem C2_add_birthday_policy_w :
    add_birthday_body ["E", "03.04.2000"] c2book
      = (.error (.valueError "Birthday already given"), c2book) :=
  (C2_add_birthday_policy c2book "E" "03.04.2000" c2recBd rfl).1 (by decide)

/-- The book for the Saturday-birthday instance of C5. -/
def c5book15 : AddressBook := ⟨[("A", ⟨"A", [], some ⟨⟨1990, 6, 15⟩⟩⟩)]⟩

/-- The book for the Wednesday-birthday instance of C5. -/
def c5book12 : AddressBook := ⟨[("A", ⟨"A", [], some ⟨⟨1990, 6, 12⟩⟩⟩)]⟩

/-- C5: for a candidate date in the 0..7-day window, a Monday–Friday
candidate is emitted as the congratulation date itself, and a
Saturday/Sunday candidate is emitted as the date `7 - weekday` days
later, which is a valid date and a Monday (the following Monday); in
particular, from reference date 2024-06-10, birthday 15.06.1990 yields
congratulation date 17.06.2024 and birthday 12.06.1990 yields
12.06.2024. -/
theorem C5_congratulation_date :
    (∀ (nm : String) (todayN dd mm year : Nat),
      validDate ⟨year, mm, dd⟩ = true → 1000 ≤ year →
      0 ≤ (rataDie ⟨year, mm, dd⟩ : Int) - (todayN : Int) →
      (rataDie ⟨year, mm, dd⟩ : Int) - (todayN : Int) ≤ 7 →
      ((weekday ⟨year, mm, dd⟩ ≤ 4 →
          candidateEntries nm todayN dd mm year = .ok [⟨nm, fmtDate ⟨year, mm, dd⟩⟩])
       ∧ (4 < weekday ⟨year, mm, dd⟩ →
          ∃ m2 : Date,
            candidateEntries nm todayN dd mm year = .ok [⟨nm, fmtDate m2⟩]
            ∧ validDate m2 = true
            ∧ rataDie m2 = rataDie ⟨year, mm, dd⟩ + (7 - weekday ⟨year, mm, dd⟩)
            ∧ weekday m2 = 0)))
    ∧ AddressBook.get_upcoming_birthdays c5book15 ⟨2024, 6, 10⟩ = .ok [⟨"A", "17.06.2024"⟩]
    ∧ AddressBook.get_upcoming_birthdays c5book12 ⟨2024, 6, 10⟩ = .ok [⟨"A", "12.06.2024"⟩] := by
  refine ⟨?_, rfl, rfl⟩
  intro nm todayN dd mm year hv hy h0 h7
  constructor
  · intro hw
    unfold candidateEntries
    rw [hv]
    rw [if_pos rfl, if_pos ⟨h0, h7⟩, if_pos hw]
    unfold fmtDate
    rw [pad4_eq_toString year hy]
  · intro hw
    refine ⟨addDays ⟨year, mm, dd⟩ (7 - weekday ⟨year, mm, dd⟩), ?_, ?_, ?_, ?_⟩
    · unfold candidateEntries
      rw [hv]
      rw [if_pos rfl, if_pos ⟨h0, h7⟩, if_neg (by omega)]
    · exact (rataDie_addDays _ _ hv).1
    · exact (rataDie_addDays _ _ hv).2
    · exact weekday_roll_monday _ hv

/-- C5 witness: the general weekday rule applied to the in-window
Wednesday candidate 12.06.2024 with reference day number 739047
(2024-06-10). -/
theorem C5_congratulation_date_w :
    candidateEntries "W" 739047 12 6 2024 = .ok [⟨"W", fmtDate ⟨2024, 6, 12⟩⟩] :=
  (C5_congratulation_date.1 "W" 739047 12 6 2024 (by decide) (by decide) (by decide)
    (by decide)).1 (by decide)

/-- C6 counterexample: `"1234567890\n"` contains a non-digit character,
yet `Phone` construction succeeds on it (Python's `$` also matches just
before a trailing newline), and its display returns the input
including the newline. -/
theorem C6_counterexample :
    tenDigits "1234567890\n" = false
    ∧ Phone.init "1234567890\n" = .ok ⟨"1234567890\n"⟩
    ∧ Phone.str ⟨"1234567890\n"⟩ = "1234567890\n" :=
  ⟨by decide, by decide, rfl⟩

/-- C6 (amended): `Phone` construction succeeds exactly on ten decimal
digits optionally followed by a single trailing newline; every
ten-digit string is accepted and round-trips through display, and every
string the pattern rejects fails with the invalid-format error. -/
theorem C6_phone_validation (s : String) :
    (tenDigits s = true → Phone.init s = .ok ⟨s⟩ ∧ Phone.str ⟨s⟩ = s)
    ∧ (phMatch s = false →
        Phone.init s = .error (.valueError "Phone number must contain exactly 10 digits."))
    ∧ (phMatch s = true ↔ (tenDigits s = true ∨ tenDigitNl s = true)) := by
  refine ⟨fun h => ⟨phone_init_of_tenDigits s h, rfl⟩, phone_init_of_not_phMatch s, ?_, ?_⟩
  · exact tenDigits_or_nl_of_phMatch s
  · intro h
    rcases h with h | h
    · exact phMatch_of_tenDigits s h
    · exact phMatch_of_tenDigitNl s h

/-- C6 witness: a ten-digit string is accepted and round-trips; a
9-character string is rejected with the invalid-format error. -/
theorem C6_phone_validation_w :
    Phone.init "0123456789" = .ok ⟨"0123456789"⟩
    ∧ Phone.init "12a4567890"
        = .error (.valueError "Phone number must contain exactly 10 digits.") :=
  ⟨((C6_phone_validation "0123456789").1 (by decide)).1,
   (C6_phone_validation "12a4567890").2.1 (by decide)⟩

/-- The record used by the C7 witness. -/
def c7rec : Record := ⟨"D", [⟨"1112223333"⟩, ⟨"4445556666"⟩], none⟩

/-- C7: on a duplicate-free phone list holding `old` at index `i`,
`editPhone(old, new)` with a pattern-valid `new` succeeds, keeps the
list length, places `new` at index `i` and leaves every other position
unchanged; it fails with the not-found error when `old` is absent and
with the invalid-format error when `new` is rejected, in both cases
leaving the record unchanged. -/
theorem C7_edit_phone_position (r : Record) (old nw : String) (i : Nat) :
    (r.phones.Nodup → r.phones[i]? = some ⟨old⟩ → phMatch nw = true →
      (r.edit_phone old nw).1 = .ok ()
      ∧ ((r.edit_phone old nw).2).phones.length = r.phones.length
      ∧ ((r.edit_phone old nw).2).phones[i]? = some ⟨nw⟩
      ∧ ∀ j : Nat, j ≠ i → ((r.edit_phone old nw).2).phones[j]? = r.phones[j]?)
    ∧ (Phone.mk old ∉ r.phones →
        r.edit_phone old nw = (.error (.valueError "Phone number not found"), r))
    ∧ (Phone.mk old ∈ r.phones → phMatch nw = false →
        r.edit_phone old nw
          = (.error (.valueError "Phone number must contain exactly 10 digits."), r)) := by
  refine ⟨?_, ?_, ?_⟩
  · intro hn hi hm
    have hmem : Phone.mk old ∈ r.phones := List.getElem?_mem hi
    have hfind : r.find_phone old = .ok ⟨old⟩ := by
      unfold Record.find_phone
      rw [find_phone_of_mem r.phones old hmem]
    have hinit : Phone.init nw = .ok ⟨nw⟩ := by
      unfold Phone.init
      rw [hm]
      rfl
    have hidx : r.phones.findIdx (fun q => q == (⟨old⟩ : Phone)) = i :=
      findIdx_of_nodup r.phones i ⟨old⟩ hn hi
    have hlen : i < r.phones.length := by
      rcases List.getElem?_eq_some.mp hi with ⟨hl, _⟩
      exact hl
    have hedit : r.edit_phone old nw
        = (.ok (), { r with phones := r.phones.set i ⟨nw⟩ }) := by
      simp only [Record.edit_phone, hfind, hinit, hidx]
    refine ⟨by rw [hedit], by rw [hedit]; exact List.length_set r.phones i ⟨nw⟩, ?_, ?_⟩
    · rw [hedit]
      rw [List.getElem?_set]
      simp [hlen]
    · intro j hj
      rw [hedit]
      rw [List.getElem?_set, if_neg (fun hc => hj hc.symm)]
  · intro hnot
    have hfind : r.find_phone old = .error (.valueError "Phone number not found") := by
      unfold Record.find_phone
      rw [find_phone_of_not_mem r.phones old hnot]
    unfold Record.edit_phone
    rw [hfind]
  · intro hmem hm
    have hfind : r.find_phone old = .ok ⟨old⟩ := by
      unfold Record.find_phone
      rw [find_phone_of_mem r.phones old hmem]
    unfold Record.edit_phone
    rw [hfind, phone_init_of_not_phMatch nw hm]

/-- C7 witness: editing the phone at index 0 of a two-element list
succeeds and writes the new phone at index 0. -/
theorem C7_edit_phone_position_w :
    (Record.edit_phone c7rec "1112223333" "7778889999").1 = .ok ()
    ∧ ((Record.edit_phone c7rec "1112223333" "7778889999").2).phones[0]?
        = some ⟨"7778889999"⟩ :=
  ⟨((C7_edit_phone_position c7rec "1112223333" "7778889999" 0).1 (by decide) (by decide)
      (by decide)).1,
   ((C7_edit_phone_position c7rec "1112223333" "7778889999" 0).1 (by decide) (by decide)
      (by decide)).2.2.1⟩

/-- C8: adding a ten-digit phone not yet stored succeeds and appends
it; adding the same string again fails with the duplicate error and
leaves the phone list exactly as it was before the failed call. -/
theorem C8_duplicate_phone (r : Record) (p : String)
    (h1 : tenDigits p = true) (h2 : Phone.mk p ∉ r.phones) :
    (r.add_phone p).1 = .ok ()
    ∧ ((r.add_phone p).2).phones = r.phones ++ [⟨p⟩]
    ∧ (((r.add_phone p).2).add_phone p).1
        = .error (.valueError "This phone number already exists")
    ∧ (((r.add_phone p).2).add_phone p).2 = (r.add_phone p).2 := by
  have hinit : Phone.init p = .ok ⟨p⟩ := phone_init_of_tenDigits p h1
  have hfst : r.add_phone p = (.ok (), { r with phones := r.phones ++ [⟨p⟩] }) := by
    simp only [Record.add_phone, hinit]
    rw [if_neg h2]
  have hmem2 : Phone.mk p ∈ r.phones ++ [(⟨p⟩ : Phone)] := by simp
  have hsnd : ({ r with phones := r.phones ++ [⟨p⟩] } : Record).add_phone p
      = (.error (.valueError "This phone number already exists"),
         { r with phones := r.phones ++ [⟨p⟩] }) := by
    simp only [Record.add_phone, hinit]
    rw [if_pos hmem2]
  refine ⟨by rw [hfst], by rw [hfst], by rw [hfst, hsnd], by rw [hfst, hsnd]⟩

/-- C8 witness: the double-add on a fresh record "C". -/
theorem C8_duplicate_phone_w :
    (Record.add_phone ⟨"C", [], none⟩ "5550001111").1 = .ok ()
    ∧ (((Record.add_phone ⟨"C", [], none⟩ "5550001111").2).add_phone "5550001111").1
        = .error (.valueError "This phone number already exists") :=
  ⟨(C8_duplicate_phone ⟨"C", [], none⟩ "5550001111" (by decide) (by decide)).1,
   (C8_duplicate_phone ⟨"C", [], none⟩ "5550001111" (by decide) (by decide)).2.2.1⟩

end Assignment

